import Mathlib

/-!
# Verification of the GitHub-Bot-Telegram event pipeline

Shallow embedding of the event-detection-to-delivery pipeline:

* `src/modules/jobs/monitor.py`            — `RepositoryMonitor._check_for_new_stars`
* `src/modules/jobs/release_monitor.py`    — `ReleaseMonitor._process_single_repo_release`
* `src/modules/jobs/scheduler.py`          — `DigestScheduler._send_digest`
* `src/modules/telegram/services/notification_service.py`
                                           — `notification_worker`, `NotificationService._send_notification`
* `src/bot.py`                             — the (older) `notification_worker` actually started by `run()`
* `src/core/database.py`                   — `DatabaseManager` persistence operations
* `src/modules/ai/summarizer.py`           — `AISummarizer._execute_with_retry`, `summarize_readme`

Python state (the SQLite tables, the asyncio queue, the worker-local flags) is made
explicit: each operation is a pure function from the relevant state and its inputs to
the successor state plus its observable outputs.  Network/AI outcomes are parameters.
Timestamps are modelled as naturals; the code compares ISO-8601 strings produced by
`datetime.isoformat()`, whose lexicographic order agrees with the time order for the
fixed-width UTC timestamps GitHub returns.
-/

/-- An item placed on the shared `asyncio.Queue` (`repo_queue`).  The producers in
this snapshot put two different shapes on the queue: `RepositoryMonitor` and
`DigestScheduler` put a bare `repo_full_name` string (`monitor.py:114`,
`scheduler.py:65`), while `ReleaseMonitor` puts the 2-tuple
`("release", repo_name)` (`release_monitor.py:111`). -/
inductive QItem where
  | str (s : String)
  | pair (kind : String) (repo : String)
deriving DecidableEq

/-- The wire shape the spec prescribes for queue items: a 2-tuple
`(kind ∈ {star, release}, repo_identifier : "owner/name")`. -/
def isWireShape : QItem → Bool
  | QItem.pair k r =>
      (k == "star" || k == "release") &&
      (match r.toList.splitOn '/' with
       | [owner, name] => !owner.isEmpty && !name.isEmpty
       | _ => false)
  | QItem.str _ => false

/-! ## Persistence operations (`src/core/database.py`)

The `digest_queue` table has `repo_full_name TEXT UNIQUE NOT NULL` with an
autoincrement id and an insertion timestamp; reading in `added_at` order is
insertion order, so the table is a duplicate-free list. -/

/-- `DatabaseManager.add_repo_to_digest`: `INSERT OR IGNORE INTO digest_queue
(repo_full_name) VALUES (?)` — a no-op when the repo is already queued. -/
def add_repo_to_digest (q : List String) (repo : String) : List String :=
  if repo ∈ q then q else q ++ [repo]

/-- `repository_release_state` table: a map `repo_full_name → latest_release_node_id`,
modelled as an association list. -/
def lookupRelease (m : List (String × String)) (repo : String) : Option String :=
  (m.find? (fun p => p.1 == repo)).map (fun p => p.2)

/-- `DatabaseManager.update_repository_release_id`: upsert
(`INSERT ... ON CONFLICT(repo_full_name) DO UPDATE SET latest_release_node_id = ...`). -/
def updateRelease (m : List (String × String)) (repo nodeId : String) :
    List (String × String) :=
  if m.any (fun p => p.1 == repo) then
    m.map (fun p => if p.1 == repo then (repo, nodeId) else p)
  else
    m ++ [(repo, nodeId)]

/-! ## Star monitor (`src/modules/jobs/monitor.py`) -/

/-- One element of the list returned by
`GitHubAPI.get_authenticated_user_starred_events()` (newest first). -/
structure StarEvent where
  starred_at : Nat
  repo_full_name : String
deriving DecidableEq

/-- State touched by `RepositoryMonitor._check_for_new_stars`: the persisted
`last_check_timestamp`, the persisted digest mode, the shared delivery queue and
the persisted digest queue. -/
structure StarCheckState where
  lastCheck : Option Nat
  digestMode : String
  queue : List QItem
  digestQueue : List String
deriving DecidableEq

/-- Body of the per-event loop in `_check_for_new_stars` (monitor.py:109-117):
in digest mode "off" the repo name is `put` on the delivery queue **as a bare
string**, otherwise it is added to the digest queue. -/
def processStarEvent (st : StarCheckState) (e : StarEvent) : StarCheckState :=
  if st.digestMode == "off" then
    { st with queue := st.queue ++ [QItem.str e.repo_full_name] }
  else
    { st with digestQueue := add_repo_to_digest st.digestQueue e.repo_full_name }

/-- `RepositoryMonitor._check_for_new_stars` (monitor.py:79-121) on a successful
fetch returning `events` (newest first).  Mirrors the source: empty fetch returns;
no stored marker records `events[0].starred_at` as baseline and returns; otherwise
the strictly newer subset is processed oldest→newest and the marker is set to
`events[0].starred_at`. -/
def check_for_new_stars (st : StarCheckState) (events : List StarEvent) :
    StarCheckState :=
  match events with
  | [] => st
  | e0 :: _ =>
    match st.lastCheck with
    | none => { st with lastCheck := some e0.starred_at }
    | some m =>
      let newEvents := events.filter (fun e => m < e.starred_at)
      if newEvents.isEmpty then st
      else
        let st1 := (newEvents.reverse).foldl processStarEvent st
        { st1 with lastCheck := some e0.starred_at }

/-! ## Digest scheduler (`src/modules/jobs/scheduler.py`) -/

/-- `DigestScheduler._send_digest` (scheduler.py:55-65): drain the digest queue
(`get_and_clear_digest_queue`, read in insertion order then cleared) and `put`
each drained repo name on the delivery queue — again as a bare string. -/
def send_digest (digestQueue : List String) (queue : List QItem) :
    List String × List QItem :=
  if digestQueue.isEmpty then (digestQueue, queue)
  else ([], queue ++ digestQueue.map QItem.str)

/-! ## Release monitor (`src/modules/jobs/release_monitor.py`) -/

/-- State touched by one `_process_single_repo_release` call: the persisted
release-id map and the shared delivery queue. -/
structure RelState where
  releaseIds : List (String × String)
  queue : List QItem
deriving DecidableEq

/-- `ReleaseMonitor._process_single_repo_release` (release_monitor.py:94-118) for
repo `repo` when the fetch yields latest-release tag `fetched` (`none` models a
repo without release information, which returns immediately).  Mirrors the
source order: the event is queued whenever `known_tag != latest_tag` — including
when `known_tag` is `None` — and the stored id is then updated unconditionally. -/
def process_single_repo_release (st : RelState) (repo : String)
    (fetched : Option String) : RelState :=
  match fetched with
  | none => st
  | some latest =>
    let known := lookupRelease st.releaseIds repo
    let st1 :=
      if known = some latest then st
      else { st with queue := st.queue ++ [QItem.pair "release" repo] }
    { st1 with releaseIds := updateRelease st1.releaseIds repo latest }

/-! ## Notification worker (`notification_service.py:37-73` and `bot.py:31-42`) -/

/-- Python tuple unpacking `notification_type, repo_full_name = item` applied to a
queue item.  A `("release", repo)` tuple unpacks to its components; a bare string
unpacks iff it has exactly two characters (each becoming a 1-character string);
anything else raises `ValueError`, modelled as `none`. -/
def unpackItem : QItem → Option (String × String)
  | QItem.pair k r => some (k, r)
  | QItem.str s =>
    match s.toList with
    | [a, b] => some (String.mk [a], String.mk [b])
    | _ => none

/-- Whether one iteration of the v5 `notification_worker`
(notification_service.py:46-73) calls `queue.task_done()` for the item it
dequeued.  `repo_full_name` is initialised to `None`; it is only assigned when
the tuple unpack succeeds, and the `finally` block guards the ack with
`if repo_full_name:` (Python truthiness, so the empty string also skips the
ack).  `processingRaises` tells whether `service.process_and_send` raised; the
`except Exception` arm swallows it before the `finally` block runs, so the ack
does not depend on it. -/
def workerAck (item : QItem) (_processingRaises : Bool) : Bool :=
  match unpackItem item with
  | none => false
  | some kr => !kr.2.isEmpty

/-- Whether one iteration of the older worker in `bot.py:31-42` calls
`queue.task_done()`: the ack follows `process_and_send` inside the `try`, so any
processing exception skips it. -/
def bot_worker_ack (processingRaises : Bool) : Bool :=
  !processingRaises

/-- What the v5 worker observes on one pass of its loop: either the 1-second
`queue.get` timeout fired (queue empty), or an item was dequeued and its
processing either completed or raised. -/
inductive WorkerEvent where
  | timeout
  | item (processingRaises : Bool)
deriving DecidableEq

/-- One pass of the v5 worker loop, tracking only the `is_first_item_in_batch`
flag: a timeout resets it to `True` and processes nothing; an item is processed
after the 5-second `asyncio.sleep` iff the flag is `False`, and the flag is set
to `False` only when processing completes without raising (the assignment on
line 62 sits after `process_and_send` in the `try` block).  Returns the new flag
and, when an item was processed, whether the delay preceded it. -/
def worker_step (isFirst : Bool) : WorkerEvent → Bool × Option Bool
  | WorkerEvent.timeout => (true, none)
  | WorkerEvent.item raises => (if raises then isFirst else false, some (!isFirst))

/-- Run of the v5 worker loop over a sequence of observations, collecting for
each processed item whether the inter-item delay preceded it. -/
def worker_run (isFirst : Bool) : List WorkerEvent → Bool × List Bool
  | [] => (isFirst, [])
  | e :: rest =>
    let s := worker_step isFirst e
    let r := worker_run s.1 rest
    (r.1, match s.2 with | none => r.2 | some d => d :: r.2)

/-- Modelled from the spec's words (§4.4), for comparison with `worker_run`:
the delay pattern the spec mandates — the consumer waits the fixed inter-item
delay before every item that is not the first of a contiguous burst, and an
idle (queue-empty) timeout ends the burst, whether or not items fail. -/
def specDelays (isFirst : Bool) : List WorkerEvent → List Bool
  | [] => []
  | WorkerEvent.timeout :: rest => specDelays true rest
  | WorkerEvent.item _ :: rest => (!isFirst) :: specDelays false rest

/-! ## Destination fan-out (`NotificationService._send_notification`) -/

/-- `PERMANENT_TELEGRAM_ERRORS` (notification_service.py:29-35). -/
def PERMANENT_TELEGRAM_ERRORS : List String :=
  ["chat not found", "bot was kicked", "bot was blocked by the user",
   "user is deactivated", "chat was deleted"]

/-- The media-content error substrings (notification_service.py:303). -/
def MEDIA_CONTENT_ERRORS : List String :=
  ["wrong type of the web page content", "failed to get http url content",
   "webpage_curl_failed", "webpage_media_empty"]

/-- Python's `substring in string` test, over character lists. -/
def charsContain (needle : List Char) : List Char → Bool
  | [] => needle.isEmpty
  | c :: t => needle.isPrefixOf (c :: t) || charsContain needle t

/-- `str(e).lower()`. -/
def lowerChars (s : String) : List Char := s.toList.map Char.toLower

/-- `any(p_error in error_message for p_error in PERMANENT_TELEGRAM_ERRORS)`
with `error_message = str(e).lower()` (notification_service.py:293-296). -/
def isPermanentError (msg : String) : Bool :=
  PERMANENT_TELEGRAM_ERRORS.any (fun p => charsContain p.toList (lowerChars msg))

/-- `any(media_error in error_message for media_error in media_content_errors)`
(notification_service.py:304). -/
def isMediaContentError (msg : String) : Bool :=
  MEDIA_CONTENT_ERRORS.any (fun p => charsContain p.toList (lowerChars msg))

/-- The two persisted destination tables (`destinations` and
`release_destinations`, both `target_id TEXT PRIMARY KEY`). -/
structure DestState where
  destinations : List String
  releaseDestinations : List String
deriving DecidableEq

/-- Outcome of one Telegram send call: success, or `TelegramAPIError` with
message `msg`. -/
inductive SendOutcome where
  | ok
  | err (msg : String)
deriving DecidableEq

/-- The send calls `_send_notification` can issue for one destination, in order. -/
inductive SendAttempt where
  | primary
  | proxy
  | textFallback
deriving DecidableEq

/-- `NotificationService._send_notification` (notification_service.py:247-337)
for one destination `targetId`, with the environment's responses as parameters:
`primary` is the outcome of the first send (media by URL, or text when there is
no media); `firstMediaIsPhoto` is `media_group and isinstance(media_group[0],
InputMediaPhoto)`; `downloadOk` is whether `download_image_to_bytes` returned
bytes; `proxyOutcome` is the outcome of the proxy re-upload.  Returns the new
destination tables (`remove_destination` / `remove_release_destination` are the
`DELETE` statements of database.py:166-192) and the list of send calls issued.
The text-fallback send's own failure is swallowed and changes nothing. -/
def send_notification (st : DestState) (targetId : String)
    (primary : SendOutcome) (firstMediaIsPhoto : Bool) (downloadOk : Bool)
    (proxyOutcome : SendOutcome) : DestState × List SendAttempt :=
  match primary with
  | SendOutcome.ok => (st, [SendAttempt.primary])
  | SendOutcome.err msg =>
    if isPermanentError msg then
      ({ destinations := st.destinations.filter (fun d => d ≠ targetId),
         releaseDestinations :=
           st.releaseDestinations.filter (fun d => d ≠ targetId) },
       [SendAttempt.primary])
    else if isMediaContentError msg then
      if firstMediaIsPhoto && downloadOk then
        match proxyOutcome with
        | SendOutcome.ok => (st, [SendAttempt.primary, SendAttempt.proxy])
        | SendOutcome.err _ =>
            (st, [SendAttempt.primary, SendAttempt.proxy, SendAttempt.textFallback])
      else (st, [SendAttempt.primary, SendAttempt.textFallback])
    else (st, [SendAttempt.primary])

/-! ## Enrichment retry (`AISummarizer._execute_with_retry`) -/

/-- Outcome of one `api_call` invocation: success, `ResourceExhausted` (quota),
or any other exception. -/
inductive CallOutcome where
  | success
  | quota
  | other
deriving DecidableEq

/-- `self.max_retries = 5` (summarizer.py:50). -/
def max_retries : Nat := 5

/-- `base_delay = 2` (summarizer.py:57). -/
def base_delay : ℚ := 2

/-- Observable outcome of `_execute_with_retry`: whether a result was returned
(`none` models the Python `None`), how many times `api_call` was invoked, and
the backoff delays slept between consecutive invocations. -/
structure RetryResult where
  result : Option Unit
  calls : Nat
  delays : List ℚ
deriving DecidableEq

/-- The `while attempt < self.max_retries` loop of `_execute_with_retry`
(summarizer.py:52-78), with `i` the current value of `attempt` (also the number
of calls already made, since only quota errors loop) and the fuel
`max_retries - i` as the recursion measure.  `outcomes i` is what the `i`-th
`api_call` invocation does and `jitter i` is the `random.uniform(0, 1)` draw
after it; after that failure `attempt` becomes `i + 1`, and the loop either
gives up (`attempt >= max_retries`) or sleeps `base_delay ** attempt +
jitter`. -/
def retryGo (outcomes : Nat → CallOutcome) (jitter : Nat → ℚ) :
    Nat → Nat → RetryResult
  | _, 0 => { result := none, calls := 0, delays := [] }
  | i, r + 1 =>
    match outcomes i with
    | CallOutcome.success => { result := some (), calls := 1, delays := [] }
    | CallOutcome.other => { result := none, calls := 1, delays := [] }
    | CallOutcome.quota =>
      if r = 0 then { result := none, calls := 1, delays := [] }
      else
        let rest := retryGo outcomes jitter (i + 1) r
        { result := rest.result, calls := rest.calls + 1,
          delays := (base_delay ^ (i + 1) + jitter i) :: rest.delays }

/-- `AISummarizer._execute_with_retry` (summarizer.py:52-78). -/
def execute_with_retry (outcomes : Nat → CallOutcome) (jitter : Nat → ℚ) :
    RetryResult :=
  retryGo outcomes jitter 0 max_retries

/-! ## README summarisation (`AISummarizer.summarize_readme`) -/

/-- Python `.strip('"')`: drop leading and trailing double-quote characters. -/
def stripQuotes (cs : List Char) : List Char :=
  ((cs.dropWhile (fun c => c = '"')).reverse.dropWhile (fun c => c = '"')).reverse

/-- `AISummarizer.summarize_readme` (summarizer.py:80-112).  `readme` is the
`readme_content` argument (`none` models `None`); `response` is the `.text` of
the model response when `_execute_with_retry` returned one.  Returns the summary
and whether the model was called at all.  The guard is the source's
`if not readme_content or len(readme_content) < 50: return None`; afterwards the
response text goes through `.strip().strip('"')` and an empty summary becomes
`None`. -/
def summarize_readme (readme : Option String) (response : Option String) :
    Option String × Bool :=
  match readme with
  | none => (none, false)
  | some content =>
    if content.isEmpty || content.length < 50 then (none, false)
    else
      match response with
      | none => (none, true)
      | some text =>
        let summary := stripQuotes text.trim.toList
        (if summary.isEmpty then none else some (String.mk summary), true)

/-! ## Claims -/

/-- C1: the claim says every producer enqueues a 2-tuple
`(kind ∈ {star, release}, "owner/name")`.  The code refutes it: in immediate
mode the star monitor `put`s the bare string `event.repository.full_name`
(monitor.py:114) and the digest scheduler `put`s the bare drained string
(scheduler.py:65); only the release monitor enqueues the prescribed tuple.
Evaluating the embedded producers at concrete inputs exhibits the bare-string
items, which fail the wire-shape predicate (and, downstream, crash the v5
consumer's tuple unpack). -/
theorem C1_producers_enqueue_bare_strings :
    (check_for_new_stars ⟨some 100, "off", [], []⟩ [⟨150, "a/b"⟩]).queue
        = [QItem.str "a/b"] ∧
    isWireShape (QItem.str "a/b") = false ∧
    (send_digest ["x/y"] []).2 = [QItem.str "x/y"] ∧
    isWireShape (QItem.str "x/y") = false ∧
    (process_single_repo_release ⟨[("x/y", "rel_1")], []⟩ "x/y" (some "rel_2")).queue
        = [QItem.pair "release" "x/y"] ∧
    isWireShape (QItem.pair "release" "x/y") = true := by
  decide

/-- C2: the claim says a release check on a repo with no recorded id only
records the baseline and enqueues nothing.  The code refutes it: with
`known_tag = None` the guard `known_tag != latest_tag` (release_monitor.py:108)
is true, so the event is queued before the baseline is stored.  Starting from an
empty release map, a fetch of `"v1"` for `"x/y"` enqueues a release event and
records the id. -/
theorem C2_release_cold_start_enqueues :
    process_single_repo_release ⟨[], []⟩ "x/y" (some "v1") =
      { releaseIds := [("x/y", "v1")], queue := [QItem.pair "release" "x/y"] } := by
  decide

/-- C3: the claim says every dequeued item is acked (`task_done`) exactly once,
success or failure.  The code refutes it: the v5 worker's `finally` block guards
the ack with `if repo_full_name:`, and `repo_full_name` is still `None` when the
tuple unpack of a dequeued item raises (exactly what happens to the bare-string
items the star monitor produces, e.g. `"a/b"`), and is falsy for an empty repo
identifier; the older worker in bot.py only acks after `process_and_send`
returns, so any processing exception skips the ack.  In each of these cases a
dequeued item is never marked complete and `queue.join()` deadlocks. -/
theorem C3_worker_can_skip_ack :
    workerAck (QItem.str "a/b") false = false ∧
    workerAck (QItem.str "a/b") true = false ∧
    workerAck (QItem.pair "star" "") true = false ∧
    workerAck (QItem.pair "star" "a/b") true = true ∧
    bot_worker_ack true = false := by
  decide

/-- C9: adding the same repo identifier to the digest queue twice yields exactly
one entry — the second `INSERT OR IGNORE` is a no-op, the entry is counted once,
and the queue stays duplicate-free (`add_repo_to_digest`, database.py:199-205,
over the `UNIQUE`-constrained `digest_queue` table, whose contents are
duplicate-free, i.e. `Nodup`). -/
theorem C9_digest_insert_idempotent (q : List String) (repo : String)
    (hq : q.Nodup) :
    add_repo_to_digest (add_repo_to_digest q repo) repo = add_repo_to_digest q repo ∧
    (add_repo_to_digest q repo).count repo = 1 ∧
    (add_repo_to_digest q repo).Nodup := by
  by_cases h : repo ∈ q
  · simp [add_repo_to_digest, h, hq, List.count_eq_one_of_mem hq h]
  · have h2 : repo ∈ q ++ [repo] := by simp
    refine ⟨?_, ?_, ?_⟩
    · simp [add_repo_to_digest, h, h2]
    · simp [add_repo_to_digest, h, List.count_append, List.count_eq_zero_of_not_mem h]
    · simp [add_repo_to_digest, h, List.nodup_append, hq]

/-- Witness for C9 at a concrete queue and repo. -/
theorem C9_digest_insert_idempotent_witness :
    (["x/y"] : List String).Nodup ∧
    add_repo_to_digest (add_repo_to_digest ["x/y"] "a/b") "a/b" =
      add_repo_to_digest ["x/y"] "a/b" :=
  ⟨by decide, (C9_digest_insert_idempotent ["x/y"] "a/b" (by decide)).1⟩

/-- C10: `summarize_readme` returns `None` and never calls the model when the
README is absent, empty, or shorter than 50 characters
(summarizer.py:81-83), and conversely the model is only ever called for a
README of at least 50 characters. -/
theorem C10_short_readme_skips_ai (readme response : Option String) :
    ((readme = none ∨ ∃ s, readme = some s ∧ s.length < 50) →
      summarize_readme readme response = (none, false)) ∧
    ((summarize_readme readme response).2 = true →
      ∃ s, readme = some s ∧ 50 ≤ s.length) := by
  constructor
  · rintro (rfl | ⟨s, rfl, hs⟩)
    · rfl
    · simp [summarize_readme, hs]
  · intro h
    cases readme with
    | none => simp [summarize_readme] at h
    | some s =>
      refine ⟨s, rfl, ?_⟩
      by_contra hlt
      push_neg at hlt
      simp [summarize_readme, hlt] at h

/-- Witness for C10 at a concrete short README. -/
theorem C10_short_readme_skips_ai_witness :
    ("short" : String).length < 50 ∧
    summarize_readme (some "short") (some "resp") = (none, false) :=
  ⟨by decide, (C10_short_readme_skips_ai (some "short") (some "resp")).1
    (Or.inr ⟨"short", rfl, by decide⟩)⟩

/-! ### Association-list lemmas for the release-id map -/

theorem lookup_map_update_self (k v : String) (m : List (String × String)) :
    lookupRelease (m.map (fun p => if p.1 == k then (k, v) else p)) k =
      if m.any (fun p => p.1 == k) then some v else none := by
  induction m with
  | nil => rfl
  | cons a t ih =>
    rw [List.map_cons, List.any_cons]
    by_cases hak : a.1 = k
    · have hb : (a.1 == k) = true := beq_iff_eq.mpr hak
      rw [if_pos hb]
      unfold lookupRelease
      rw [List.find?_cons_of_pos _ (by simp)]
      simp [hb]
    · have hb : (a.1 == k) = false := beq_eq_false_iff_ne.mpr hak
      rw [if_neg (by simp [hb])]
      unfold lookupRelease
      rw [List.find?_cons_of_neg _ (by simp [hb])]
      rw [hb, Bool.false_or]
      exact ih

theorem lookup_map_update_other (k v r : String) (hrk : r ≠ k)
    (m : List (String × String)) :
    lookupRelease (m.map (fun p => if p.1 == k then (k, v) else p)) r =
      lookupRelease m r := by
  induction m with
  | nil => rfl
  | cons a t ih =>
    rw [List.map_cons]
    by_cases hak : a.1 = k
    · have hb : (a.1 == k) = true := beq_iff_eq.mpr hak
      have har : (a.1 == r) = false :=
        beq_eq_false_iff_ne.mpr (by rw [hak]; exact fun h => hrk h.symm)
      rw [if_pos hb]
      unfold lookupRelease
      rw [List.find?_cons_of_neg _ (by simp [beq_eq_false_iff_ne.mpr (fun h => hrk h.symm)]),
          List.find?_cons_of_neg _ (by simp [har])]
      exact ih
    · have hb : (a.1 == k) = false := beq_eq_false_iff_ne.mpr hak
      rw [if_neg (by simp [hb])]
      by_cases har : a.1 = r
      · have hbr : (a.1 == r) = true := beq_iff_eq.mpr har
        unfold lookupRelease
        rw [List.find?_cons_of_pos _ (by simp [hbr]), List.find?_cons_of_pos _ (by simp [hbr])]
      · have hbr : (a.1 == r) = false := beq_eq_false_iff_ne.mpr har
        unfold lookupRelease
        rw [List.find?_cons_of_neg _ (by simp [hbr]), List.find?_cons_of_neg _ (by simp [hbr])]
        exact ih

theorem any_of_lookup_some (m : List (String × String)) (k idA : String)
    (h : lookupRelease m k = some idA) : m.any (fun p => p.1 == k) = true := by
  unfold lookupRelease at h
  cases hf : m.find? (fun p => p.1 == k) with
  | none => rw [hf] at h; simp at h
  | some x =>
    have hx := List.find?_some hf
    exact List.any_eq_true.mpr ⟨x, List.mem_of_find?_eq_some hf, by simpa using hx⟩

/-- C4: dedup monotonicity for releases.  With `repo → idA` stored, a fetch
returning `idA` again enqueues nothing and leaves every stored id unchanged; a
fetch returning a different `idB` enqueues exactly one `("release", repo)` event
and overwrites the stored id with `idB`, leaving other repos' ids unchanged
(release_monitor.py:94-123, database.py:241-263). -/
theorem C4_release_dedup_monotone (st : RelState) (repo idA : String)
    (hstored : lookupRelease st.releaseIds repo = some idA) :
    ((process_single_repo_release st repo (some idA)).queue = st.queue ∧
     ∀ r, lookupRelease (process_single_repo_release st repo (some idA)).releaseIds r =
            lookupRelease st.releaseIds r) ∧
    (∀ idB, idB ≠ idA →
      (process_single_repo_release st repo (some idB)).queue =
          st.queue ++ [QItem.pair "release" repo] ∧
      lookupRelease (process_single_repo_release st repo (some idB)).releaseIds repo =
          some idB ∧
      ∀ r, r ≠ repo →
        lookupRelease (process_single_repo_release st repo (some idB)).releaseIds r =
          lookupRelease st.releaseIds r) := by
  have hany : st.releaseIds.any (fun p => p.1 == repo) = true :=
    any_of_lookup_some st.releaseIds repo idA hstored
  have hupd : ∀ v, updateRelease st.releaseIds repo v =
      st.releaseIds.map (fun p => if p.1 == repo then (repo, v) else p) := by
    intro v
    unfold updateRelease
    rw [if_pos hany]
  have heq1 : process_single_repo_release st repo (some idA) =
      { releaseIds := updateRelease st.releaseIds repo idA, queue := st.queue } := by
    simp [process_single_repo_release, hstored]
  have heq2 : ∀ idB, idB ≠ idA → process_single_repo_release st repo (some idB) =
      { releaseIds := updateRelease st.releaseIds repo idB,
        queue := st.queue ++ [QItem.pair "release" repo] } := by
    intro idB hne
    simp [process_single_repo_release, hstored, Ne.symm hne]
  constructor
  · rw [heq1]
    refine ⟨rfl, ?_⟩
    intro r
    rw [hupd]
    by_cases hr : r = repo
    · subst hr
      rw [lookup_map_update_self, if_pos hany, hstored]
    · rw [lookup_map_update_other _ _ _ hr]
  · intro idB hne
    rw [heq2 idB hne]
    refine ⟨rfl, ?_, ?_⟩
    · rw [hupd, lookup_map_update_self, if_pos hany]
    · intro r hr
      rw [hupd, lookup_map_update_other _ _ _ hr]

/-- Witness for C4: the spec's scenario — stored `"rel_1"` for `"x/y"`, batch
returns `"rel_2"` → one release event for `"x/y"`, stored id becomes
`"rel_2"`; and a fetch of `"rel_1"` again enqueues nothing. -/
theorem C4_release_dedup_monotone_witness :
    lookupRelease [("x/y", "rel_1")] "x/y" = some "rel_1" ∧
    (process_single_repo_release ⟨[("x/y", "rel_1")], []⟩ "x/y" (some "rel_1")).queue
        = [] ∧
    (process_single_repo_release ⟨[("x/y", "rel_1")], []⟩ "x/y" (some "rel_2")).queue
        = [QItem.pair "release" "x/y"] ∧
    lookupRelease
        (process_single_repo_release ⟨[("x/y", "rel_1")], []⟩ "x/y"
          (some "rel_2")).releaseIds "x/y" = some "rel_2" := by
  have h := C4_release_dedup_monotone ⟨[("x/y", "rel_1")], []⟩ "x/y" "rel_1" (by decide)
  have h2 := h.2 "rel_2" (by decide)
  exact ⟨by decide, h.1.1, h2.1, h2.2.1⟩

/-! ### Lemmas about the retry loop -/

theorem retryGo_calls_le (o : Nat → CallOutcome) (j : Nat → ℚ) :
    ∀ (r i : Nat), (retryGo o j i r).calls ≤ r := by
  intro r
  induction r with
  | zero => intro i; simp [retryGo]
  | succ n ih =>
    intro i
    cases ho : o i with
    | success => simp [retryGo, ho]
    | other => simp [retryGo, ho]
    | quota =>
      by_cases hn : n = 0
      · simp [retryGo, ho, hn]
      · simp only [retryGo, ho, if_neg hn]
        exact Nat.succ_le_succ (ih (i + 1))

theorem retryGo_only_quota (o : Nat → CallOutcome) (j : Nat → ℚ) :
    ∀ (r i k : Nat), k + 1 < (retryGo o j i r).calls → o (i + k) = CallOutcome.quota := by
  intro r
  induction r with
  | zero => intro i k h; simp [retryGo] at h
  | succ n ih =>
    intro i k h
    cases ho : o i with
    | success => simp [retryGo, ho] at h
    | other => simp [retryGo, ho] at h
    | quota =>
      by_cases hn : n = 0
      · simp [retryGo, ho, hn] at h
      · simp only [retryGo, ho, if_neg hn] at h
        cases k with
        | zero => simpa using ho
        | succ m =>
          have := ih (i + 1) m (by omega)
          simpa [Nat.add_assoc, Nat.add_comm 1 m] using this

/-- C6: the retry wrapper issues at most `max_retries` (5) `api_call`
invocations; every non-final invocation failed with the quota error (so nothing
else is ever retried); a first-call non-quota exception yields `None` after
exactly one invocation; and when every invocation hits the quota error the
wrapper makes exactly 5 calls, sleeps `base_delay ^ attempt + jitter` for
`attempt = 1, 2, 3, 4` between them, and returns `None` (it is a total function
of the outcomes, so it never raises) — summarizer.py:52-78. -/
theorem C6_retry_bounded (o : Nat → CallOutcome) (j : Nat → ℚ) :
    (execute_with_retry o j).calls ≤ max_retries ∧
    (∀ k, k + 1 < (execute_with_retry o j).calls → o k = CallOutcome.quota) ∧
    (o 0 = CallOutcome.other →
      execute_with_retry o j = { result := none, calls := 1, delays := [] }) ∧
    ((∀ i, o i = CallOutcome.quota) →
      execute_with_retry o j =
        { result := none, calls := max_retries,
          delays := [base_delay ^ 1 + j 0, base_delay ^ 2 + j 1,
                     base_delay ^ 3 + j 2, base_delay ^ 4 + j 3] }) := by
  refine ⟨retryGo_calls_le o j max_retries 0, ?_, ?_, ?_⟩
  · intro k h
    simpa using retryGo_only_quota o j max_retries 0 k h
  · intro h
    simp [execute_with_retry, max_retries, retryGo, h]
  · intro h
    simp [execute_with_retry, max_retries, retryGo, h 0, h 1, h 2, h 3, h 4]

/-- Witness for C6: with the quota error mocked on every call and zero jitter,
the wrapper makes exactly 5 calls, sleeps 2, 4, 8, 16 seconds, and returns no
result. -/
theorem C6_retry_bounded_witness :
    (∀ i : Nat, (fun _ : Nat => CallOutcome.quota) i = CallOutcome.quota) ∧
    execute_with_retry (fun _ => CallOutcome.quota) (fun _ => 0) =
      { result := none, calls := 5, delays := [2, 4, 8, 16] } := by
  constructor
  · intro i; rfl
  · have h := (C6_retry_bounded (fun _ => CallOutcome.quota) (fun _ => 0)).2.2.2
      (fun i => rfl)
    rw [h]
    norm_num [base_delay, max_retries]

/-- C7: self-healing destination removal.  When the send for a destination
raises a `TelegramAPIError` whose message falls in the permanent class, that
destination is removed from both the star and the release destination tables
after the single primary attempt and no further send is attempted for the
payload; when the message is outside the permanent class, both tables are left
unchanged — whatever the media flags and fallback outcomes
(notification_service.py:292-300, database.py:166-192). -/
theorem C7_permanent_error_self_healing (st : DestState) (targetId msg : String)
    (firstMediaIsPhoto downloadOk : Bool) (proxyOutcome : SendOutcome) :
    (isPermanentError msg = true →
      targetId ∉ (send_notification st targetId (SendOutcome.err msg)
          firstMediaIsPhoto downloadOk proxyOutcome).1.destinations ∧
      targetId ∉ (send_notification st targetId (SendOutcome.err msg)
          firstMediaIsPhoto downloadOk proxyOutcome).1.releaseDestinations ∧
      (send_notification st targetId (SendOutcome.err msg)
          firstMediaIsPhoto downloadOk proxyOutcome).2 = [SendAttempt.primary]) ∧
    (isPermanentError msg = false →
      (send_notification st targetId (SendOutcome.err msg)
          firstMediaIsPhoto downloadOk proxyOutcome).1 = st) := by
  constructor
  · intro h
    simp [send_notification, h, List.mem_filter]
  · intro h
    by_cases hm : isMediaContentError msg
    · by_cases hf : firstMediaIsPhoto && downloadOk
      · cases proxyOutcome <;> simp [send_notification, h, hm, hf]
      · simp [send_notification, h, hm, hf]
    · simp [send_notification, h, hm]

/-- Witness for C7: a "bot was blocked by the user" error on destination
`"123"` removes it from both tables in one attempt. -/
theorem C7_permanent_error_self_healing_witness :
    isPermanentError "forbidden: bot was blocked by the user" = true ∧
    ("123" ∉ (send_notification ⟨["123", "456"], ["123"]⟩ "123"
        (SendOutcome.err "forbidden: bot was blocked by the user")
        false false SendOutcome.ok).1.destinations ∧
     "123" ∉ (send_notification ⟨["123", "456"], ["123"]⟩ "123"
        (SendOutcome.err "forbidden: bot was blocked by the user")
        false false SendOutcome.ok).1.releaseDestinations ∧
     (send_notification ⟨["123", "456"], ["123"]⟩ "123"
        (SendOutcome.err "forbidden: bot was blocked by the user")
        false false SendOutcome.ok).2 = [SendAttempt.primary]) := by
  refine ⟨by decide, ?_⟩
  exact (C7_permanent_error_self_healing ⟨["123", "456"], ["123"]⟩ "123"
    "forbidden: bot was blocked by the user" false false SendOutcome.ok).1 (by decide)

/-! ### Lemmas about the star-poll loop -/

theorem foldl_processStarEvent_off :
    ∀ (events : List StarEvent) (st : StarCheckState), st.digestMode = "off" →
      events.foldl processStarEvent st =
        { st with queue := st.queue ++
            events.map (fun e => QItem.str e.repo_full_name) } := by
  intro events
  induction events with
  | nil => intro st h; simp
  | cons e t ih =>
    intro st h
    have hmode : (st.digestMode == "off") = true := beq_iff_eq.mpr h
    rw [List.foldl_cons,
        show processStarEvent st e =
          { st with queue := st.queue ++ [QItem.str e.repo_full_name] } from by
            simp [processStarEvent, hmode],
        ih _ (by simp [h])]
    simp

/-- C5: star-poll semantics (monitor.py:79-121).  For a non-empty newest-first
poll result `e0 :: rest`: the head carries the newest timestamp; with no stored
marker the poll only records `e0.starred_at` as the marker (no event is
enqueued, no digest entry is added); with a stored marker `m` (in immediate
mode) exactly the events strictly newer than `m` are enqueued, in
oldest-to-newest order, and when at least one such event exists the marker
advances to the newest observed timestamp `e0.starred_at` (when none exists the
poll is a no-op and the marker stays — the code never moves it backwards). -/
theorem C5_star_poll_semantics (st : StarCheckState) (e0 : StarEvent)
    (rest : List StarEvent)
    (hsorted : (e0 :: rest).Pairwise (fun a b => b.starred_at ≤ a.starred_at)) :
    (∀ e ∈ e0 :: rest, e.starred_at ≤ e0.starred_at) ∧
    (st.lastCheck = none →
      check_for_new_stars st (e0 :: rest) =
        { st with lastCheck := some e0.starred_at }) ∧
    (∀ m, st.lastCheck = some m → st.digestMode = "off" →
      ((e0 :: rest).filter (fun e => m < e.starred_at) = [] →
        check_for_new_stars st (e0 :: rest) = st) ∧
      ((e0 :: rest).filter (fun e => m < e.starred_at) ≠ [] →
        check_for_new_stars st (e0 :: rest) =
          { st with
              queue := st.queue ++
                ((e0 :: rest).filter (fun e => m < e.starred_at)).reverse.map
                  (fun e => QItem.str e.repo_full_name),
              lastCheck := some e0.starred_at } ∧
        ((e0 :: rest).filter (fun e => m < e.starred_at)).reverse.Pairwise
          (fun a b => a.starred_at ≤ b.starred_at))) := by
  refine ⟨?_, ?_, ?_⟩
  · intro e he
    rcases List.mem_cons.mp he with h | h
    · rw [h]
    · exact (List.pairwise_cons.mp hsorted).1 e h
  · intro h
    simp [check_for_new_stars, h]
  · intro m hm hoff
    constructor
    · intro hempty
      simp [check_for_new_stars, hm, hempty]
    · intro hne
      constructor
      · have hemp : ((e0 :: rest).filter (fun e => m < e.starred_at)).isEmpty = false := by
          simpa [List.isEmpty_iff] using hne
        simp only [check_for_new_stars, hm, hemp, Bool.false_eq_true, if_false]
        rw [foldl_processStarEvent_off _ _ hoff]
      · rw [List.pairwise_reverse]
        exact List.Pairwise.filter _ hsorted

/-- Witness for C5: the spec's scenario — a first poll `[{t=100, "a/b"}]` with
no marker enqueues nothing and sets the marker to 100; the next poll
`[{t=150, "a/b"}, {t=100, "a/b"}]` with marker 100 enqueues exactly one item
for `"a/b"` and advances the marker to 150. -/
theorem C5_star_poll_semantics_witness :
    ([⟨150, "a/b"⟩, ⟨100, "a/b"⟩] : List StarEvent).Pairwise
        (fun a b => b.starred_at ≤ a.starred_at) ∧
    check_for_new_stars ⟨none, "off", [], []⟩ [⟨100, "a/b"⟩] =
      ⟨some 100, "off", [], []⟩ ∧
    check_for_new_stars ⟨some 100, "off", [], []⟩ [⟨150, "a/b"⟩, ⟨100, "a/b"⟩] =
      ⟨some 150, "off", [QItem.str "a/b"], []⟩ := by
  refine ⟨by decide, ?_, ?_⟩
  · exact (C5_star_poll_semantics ⟨none, "off", [], []⟩ ⟨100, "a/b"⟩ []
      (by decide)).2.1 rfl
  · have h := ((C5_star_poll_semantics ⟨some 100, "off", [], []⟩ ⟨150, "a/b"⟩
      [⟨100, "a/b"⟩] (by decide)).2.2 100 rfl rfl).2 (by decide)
    rw [h.1]
    decide

/-! ### Lemmas about the worker loop's burst state -/

theorem worker_run_append (xs ys : List WorkerEvent) : ∀ s : Bool,
    worker_run s (xs ++ ys) =
      ((worker_run (worker_run s xs).1 ys).1,
       (worker_run s xs).2 ++ (worker_run (worker_run s xs).1 ys).2) := by
  induction xs with
  | nil => intro s; simp [worker_run]
  | cons e t ih =>
    intro s
    rw [List.cons_append]
    simp only [worker_run]
    rw [ih]
    cases e with
    | timeout => simp [worker_step]
    | item r => simp [worker_step]

theorem worker_state_stays_false (evs : List WorkerEvent) :
    ∀ mid : List WorkerEvent, WorkerEvent.timeout ∉ mid →
      (worker_run true (evs ++ WorkerEvent.item false :: mid)).1 = false := by
  intro mid
  induction mid using List.reverseRecOn with
  | nil =>
    intro _
    rw [worker_run_append]
    simp [worker_run, worker_step]
  | append_singleton ms e ih =>
    intro hnt
    have hms : WorkerEvent.timeout ∉ ms := fun h => hnt (List.mem_append_left _ h)
    have he : e ≠ WorkerEvent.timeout := fun h => hnt (by simp [h])
    rw [show evs ++ WorkerEvent.item false :: (ms ++ [e]) =
        (evs ++ WorkerEvent.item false :: ms) ++ [e] from by simp]
    rw [worker_run_append]
    cases e with
    | timeout => exact absurd rfl he
    | item r =>
      rw [ih hms]
      simp [worker_run, worker_step]

/-- C8 counterexample: the claim says the consumer never processes an item that
is not the first of a contiguous burst without the 5-second delay.  The code
sets `is_first_item_in_batch = False` only after `process_and_send` returns
(notification_service.py:60-62), so when the first item's processing raises,
the flag stays `True` and the *second* item of the burst — with no idle timeout
in between — is processed with no delay, while the spec's delay pattern
(`specDelays`) mandates one. -/
theorem C8_counterexample_failed_item_skips_delay :
    (worker_run true [WorkerEvent.item true, WorkerEvent.item false]).2 =
      [false, false] ∧
    specDelays true [WorkerEvent.item true, WorkerEvent.item false] =
      [false, true] ∧
    (worker_run true [WorkerEvent.item true, WorkerEvent.item false]).2 ≠
      specDelays true [WorkerEvent.item true, WorkerEvent.item false] := by
  decide

/-- C8 amended: the 5-second delay precedes an item iff the
`is_first_item_in_batch` flag is unset at that point; a queue-empty timeout
resets the flag (so the next item is processed with no delay), an item whose
processing completes clears it, and an item whose processing raises leaves it
unchanged.  Hence every item that follows a successfully processed item with no
intervening idle timeout is delayed, but an item preceded only by failed items
in its burst is processed without the delay. -/
theorem C8_amended_delay_semantics (evs mid : List WorkerEvent) (r : Bool)
    (hmid : WorkerEvent.timeout ∉ mid) :
    ((worker_run true (evs ++ [WorkerEvent.item r])).2 =
        (worker_run true evs).2 ++ [!(worker_run true evs).1]) ∧
    ((worker_run true (evs ++ [WorkerEvent.timeout])).1 = true) ∧
    ((worker_run true (evs ++ [WorkerEvent.item false])).1 = false) ∧
    ((worker_run true (evs ++ [WorkerEvent.item true])).1 =
        (worker_run true evs).1) ∧
    ((worker_run true ((evs ++ WorkerEvent.item false :: mid) ++
        [WorkerEvent.item r])).2 =
      (worker_run true (evs ++ WorkerEvent.item false :: mid)).2 ++ [true]) ∧
    ((worker_run true ((evs ++ [WorkerEvent.timeout]) ++ [WorkerEvent.item r])).2 =
        (worker_run true (evs ++ [WorkerEvent.timeout])).2 ++ [false]) := by
  have htimeout : (worker_run true (evs ++ [WorkerEvent.timeout])).1 = true := by
    rw [worker_run_append]
    simp [worker_run, worker_step]
  refine ⟨?_, htimeout, ?_, ?_, ?_, ?_⟩
  · rw [worker_run_append]
    simp [worker_run, worker_step]
  · rw [worker_run_append]
    simp [worker_run, worker_step]
  · rw [worker_run_append]
    simp [worker_run, worker_step]
  · rw [worker_run_append, worker_state_stays_false evs mid hmid]
    simp [worker_run, worker_step]
  · rw [worker_run_append, htimeout]
    simp [worker_run, worker_step]

/-- Witness for C8's amended theorem: burst = one successful item, then one
failed item, then a third item — the third item is delayed. -/
theorem C8_amended_delay_semantics_witness :
    WorkerEvent.timeout ∉ ([WorkerEvent.item true] : List WorkerEvent) ∧
    (worker_run true (([] ++ WorkerEvent.item false :: [WorkerEvent.item true]) ++
        [WorkerEvent.item true])).2 =
      (worker_run true
          ([] ++ WorkerEvent.item false :: [WorkerEvent.item true])).2 ++ [true] :=
  ⟨by decide,
   (C8_amended_delay_semantics [] [WorkerEvent.item true] true (by decide)).2.2.2.2.1⟩
